import Mathlib

/-!
Shallow embedding of the identity-resolving gatekeeper (ts-auth-proxy).

The embedding covers the three request handlers of the repository
(`server/server.go`, `proxy/proxy.go`, `pkg/server/server.go`), the
TTL/capacity-bounded identity cache behind the `cache.get` / `cache.set`
wrappers, the trusted-CIDR startup parsing of `Server.Run`, and the
serve/shutdown wiring of `Proxy.Run`'s plain listener.

Time is a logical clock in `Nat`; network addresses are IPv4 addresses
encoded as naturals below `2 ^ 32`; the external identity directory
(`tsCli.WhoIs`) is an oracle parameter `String → WhoIsResult`.
-/

deriving instance DecidableEq for Except

/-- Mirrors `userProfile` of `server/server.go` and `proxy/proxy.go`:
the three opaque identity strings carried in the identity headers. -/
structure UserProfile where
  avatar : String
  login : String
  name : String
deriving DecidableEq, Repr

/-- One stored cache binding: key (peer address string), value, and the
absolute expiry instant computed at insertion time. -/
structure CacheEntry where
  key : String
  profile : UserProfile
  expiry : Nat
deriving DecidableEq, Repr

/-- Modelled from the spec: the state of the ristretto-backed identity
cache (`cache` in `server/server.go` / `proxy/proxy.go`). The ristretto
library itself is an external dependency whose code is not in the
repository; the spec fixes its contract: entries carry unit cost, the
store never holds more than the configured maximum entry count, and an
entry is logically absent once its expiry instant is reached, checked at
read time. -/
structure Cache where
  maxTokens : Nat
  entries : List CacheEntry
deriving DecidableEq, Repr

/-- Mirrors `newCache(maxTokens)`: an empty cache with the configured
maximum entry count (`MaxCost`, unit cost per entry). -/
def newCache (maxTokens : Nat) : Cache :=
  ⟨maxTokens, []⟩

/-- Mirrors the `cache.get` wrapper: a lookup that reports a miss as an
error value. Modelled from the spec on the ristretto side: a key is
found only while `now` is strictly before its expiry instant (expiry is
checked at read time, a stale entry is never returned). -/
def Cache.get (c : Cache) (now : Nat) (addr : String) : Except String UserProfile :=
  match c.entries.find? (fun e => e.key == addr && decide (now < e.expiry)) with
  | some e => .ok e.profile
  | none => .error ("addr not found: " ++ addr)

/-- Mirrors the `cache.set` wrapper (`SetWithTTL(addr, profile, 1, expiry)`).
Modelled from the spec on the ristretto side: the new binding replaces any
binding of the same key, its expiry is `now + ttl`, and if the store would
exceed the maximum entry count some existing entry is evicted (here: the
oldest ones at the tail; the spec lets the eviction choice be arbitrary). -/
def Cache.set (c : Cache) (now : Nat) (addr : String) (profile : UserProfile) (ttl : Nat) : Cache :=
  ⟨c.maxTokens, (⟨addr, profile, now + ttl⟩ :: c.entries.filter (fun e => e.key ≠ addr)).take c.maxTokens⟩

/-- Splitter on a separator character, mirroring Go's `strings.Split`
(and used in place of `String.split` so that terms reduce in the kernel):
the empty text yields one empty field, and each separator occurrence
starts a new field. -/
def splitOnChar (sep : Char) : List Char → List (List Char)
  | [] => [[]]
  | c :: rest =>
    if c = sep then [] :: splitOnChar sep rest
    else
      match splitOnChar sep rest with
      | [] => [[c]]
      | f :: r => (c :: f) :: r

/-- Digits to a natural number, most significant first. -/
def digitsToNat (cs : List Char) : Nat :=
  cs.foldl (fun a c => a * 10 + (c.toNat - 48)) 0

/-- Mirrors `netip`'s parsing of one dotted-quad field: one to three
digits, no leading zero, value at most 255. -/
def parseIPv4Field (cs : List Char) : Option Nat :=
  if cs.length = 0 ∨ 3 < cs.length then none
  else if !cs.all (fun c => c.isDigit) then none
  else if 1 < cs.length ∧ cs.head? = some '0' then none
  else
    let n := digitsToNat cs
    if n ≤ 255 then some n else none

/-- Mirrors `netip.ParseAddr` restricted to IPv4 dotted-quad form: four
fields joined by dots. The handlers under verification key their trust
and cache behaviour on the parse result, not on the address family, so
IPv6 literals are simply strings this parser rejects. -/
def parseIPv4 (s : String) : Option Nat :=
  match splitOnChar '.' s.toList with
  | [a, b, c, d] =>
    match parseIPv4Field a, parseIPv4Field b, parseIPv4Field c, parseIPv4Field d with
    | some x, some y, some z, some w => some (((x * 256 + y) * 256 + z) * 256 + w)
    | _, _, _, _ => none
  | _ => none

/-- Mirrors the port half of `netip.ParseAddrPort`: decimal digits,
value at most 65535. -/
def parsePort (s : String) : Option Nat :=
  let cs := s.toList
  if cs.length = 0 ∨ 5 < cs.length then none
  else if !cs.all (fun c => c.isDigit) then none
  else
    let n := digitsToNat cs
    if n ≤ 65535 then some n else none

/-- A parsed address-with-port, as produced by `netip.ParseAddrPort`. -/
structure AddrPort where
  ip : Nat
  port : Nat
deriving DecidableEq, Repr

/-- Mirrors `netip.ParseAddrPort(net.JoinHostPort(host, port))`: both the
host and the port part must parse. -/
def parseAddrPort (host port : String) : Option AddrPort :=
  match parseIPv4 host, parsePort port with
  | some a, some p => some ⟨a, p⟩
  | _, _ => none

/-- Dotted-quad rendering of an IPv4 address. -/
def ipv4String (a : Nat) : String :=
  toString (a / 16777216 % 256) ++ "." ++ toString (a / 65536 % 256) ++ "."
    ++ toString (a / 256 % 256) ++ "." ++ toString (a % 256)

/-- Mirrors `remoteAddr.String()`, the key handed to `tsCli.WhoIs`. -/
def addrPortString (ap : AddrPort) : String :=
  ipv4String ap.ip ++ ":" ++ toString ap.port

/-- Mirrors `netip.Prefix` for IPv4: a network address plus a bit count. -/
structure Cidr where
  ip : Nat
  bits : Nat
deriving DecidableEq, Repr

/-- Mirrors `Prefix.Contains`: the address matches the network on the top
`bits` bits (comparison of the masked forms, via division). -/
def Cidr.containsAddr (r : Cidr) (a : Nat) : Bool :=
  a / 2 ^ (32 - r.bits) == r.ip / 2 ^ (32 - r.bits)

/-- Mirrors the bit-count half of `netip.ParsePrefix`: decimal digits,
value at most 32. -/
def parseBits (cs : List Char) : Option Nat :=
  if cs.length = 0 ∨ 2 < cs.length then none
  else if !cs.all (fun c => c.isDigit) then none
  else
    let n := digitsToNat cs
    if n ≤ 32 then some n else none

/-- Mirrors `netip.ParsePrefix` restricted to IPv4: an address, a slash,
and a bit count. -/
def parseCidr (s : String) : Option Cidr :=
  match splitOnChar '/' s.toList with
  | [ipStr, bitsStr] =>
    match parseIPv4 (String.mk ipStr), parseBits bitsStr with
    | some a, some b => some ⟨a, b⟩
    | _, _ => none
  | _ => none

/-- Outcome of one `tsCli.WhoIs` directory call: either the call fails
(directory unreachable / lookup error), or it returns a node with its
tagged classification and the user profile attached to it. -/
inductive WhoIsResult where
  | failure
  | node (isTagged : Bool) (profile : UserProfile)
deriving DecidableEq, Repr

/-- Result of one run of the access-check handler of `server/server.go`:
the response status, the identity headers set on the response (`some p`
means the three `Tailscale-User-*` headers carry `p`'s fields, `none`
means no identity header was set), the cache state after the run, and
how many directory calls / cache reads / cache writes the run made. -/
structure HandlerResult where
  status : Nat
  headers : Option UserProfile
  cache : Cache
  whoisCalls : Nat
  cacheGets : Nat
  cacheSets : Nat
deriving DecidableEq, Repr

/-- Mirrors the request handler registered in `Server.Run`
(`server/server.go`, lines 129-183): header presence check, address
parsing (401 on failure), trusted-CIDR bypass (200, no headers, no cache
or directory access), cache lookup keyed by the remote host, and on a
miss a `WhoIs` call (401 on failure, 403 for a tagged node, otherwise
cache fill and headers). The resolved paths end without an explicit
`WriteHeader`, which Go's `net/http` answers with status 200. -/
def serverHandle (trustedCIDRs : List Cidr) (cacheExpiry : Nat)
    (whois : String → WhoIsResult) (c : Cache) (now : Nat)
    (remoteHost remotePort : String) : HandlerResult :=
  if remoteHost = "" ∨ remotePort = "" then ⟨401, none, c, 0, 0, 0⟩
  else
    match parseAddrPort remoteHost remotePort with
    | none => ⟨401, none, c, 0, 0, 0⟩
    | some remoteAddr =>
      if trustedCIDRs.any (fun r => r.containsAddr remoteAddr.ip) then
        ⟨200, none, c, 0, 0, 0⟩
      else
        match c.get now remoteHost with
        | .ok profile => ⟨200, some profile, c, 0, 1, 0⟩
        | .error _ =>
          match whois (addrPortString remoteAddr) with
          | .failure => ⟨401, none, c, 1, 1, 0⟩
          | .node true _ => ⟨403, none, c, 1, 1, 0⟩
          | .node false profile =>
            ⟨200, some profile, c.set now remoteHost profile cacheExpiry, 1, 1, 1⟩

/-- Decision taken by the proxying handler for one request: short-circuit
with 401 or 403, or rewrite the request headers with the profile and
forward to the upstream. -/
inductive ProxyDecision where
  | unauthorized
  | forbidden
  | forward (profile : UserProfile)
deriving DecidableEq, Repr

/-- Result of one run of the proxying handler: the decision, the cache
state after the run, and the number of directory calls made. -/
structure ProxyResult where
  decision : ProxyDecision
  cache : Cache
  whoisCalls : Nat
deriving DecidableEq, Repr

/-- Mirrors the request handler registered in `Proxy.Run`
(`proxy/proxy.go`, lines 150-212): cache lookup keyed by `r.RemoteAddr`,
on a miss a `WhoIs` call (401 on failure, 403 for a tagged node,
otherwise cache fill), then header rewriting and forwarding. -/
def proxyHandle (cacheExpiry : Nat) (whois : String → WhoIsResult)
    (c : Cache) (now : Nat) (remoteAddr : String) : ProxyResult :=
  match c.get now remoteAddr with
  | .ok profile => ⟨.forward profile, c, 0⟩
  | .error _ =>
    match whois remoteAddr with
    | .failure => ⟨.unauthorized, c, 1⟩
    | .node true _ => ⟨.forbidden, c, 1⟩
    | .node false profile => ⟨.forward profile, c.set now remoteAddr profile cacheExpiry, 1⟩

/-- Result of one run of the older access-check handler of
`pkg/server/server.go`: status, identity headers on the response, and
the number of directory calls (this variant has no cache). -/
structure PkgResult where
  status : Nat
  headers : Option UserProfile
  whoisCalls : Nat
deriving DecidableEq, Repr

/-- Mirrors the request handler registered in `Server.Run` of
`pkg/server/server.go` (lines 57-89): missing or unparsable remote
address headers answer 400, a failed `WhoIs` answers 401, a tagged node
answers 403, and success answers 204 with the three identity headers. -/
def pkgHandle (whois : String → WhoIsResult)
    (remoteHost remotePort : String) : PkgResult :=
  if remoteHost = "" ∨ remotePort = "" then ⟨400, none, 0⟩
  else
    match parseAddrPort remoteHost remotePort with
    | none => ⟨400, none, 0⟩
    | some remoteAddr =>
      match whois (addrPortString remoteAddr) with
      | .failure => ⟨401, none, 1⟩
      | .node true _ => ⟨403, none, 1⟩
      | .node false profile => ⟨204, some profile, 1⟩

/-- Mirrors `strings.Split(p.TrustedCIDR, ",")` as used by `Server.Run`. -/
def splitComma (s : String) : List String :=
  (splitOnChar ',' s.toList).map (fun cs => String.mk cs)

/-- Mirrors the trusted-CIDR startup loop of `Server.Run`
(`server/server.go`, lines 87-91): each comma-separated element goes
through `netip.MustParsePrefix`, which panics on a malformed element.
The panic is modelled as `none`; `some` carries the parsed list reached
only when every element is valid. -/
def mustParseAll : List String → Option (List Cidr)
  | [] => some []
  | s :: rest =>
    match parseCidr s with
    | none => none
    | some r =>
      match mustParseAll rest with
      | none => none
      | some rs => some (r :: rs)

/-- Startup prefix parsing of `Server.Run`: split the configured string
on commas and run every element through `netip.MustParsePrefix`
(`none` = the startup panics before reaching the listener phase). -/
def serverParseTrustedCIDRs (s : String) : Option (List Cidr) :=
  mustParseAll (splitComma s)

/-- The two distinct `http.Server` values involved in the plain-listener
branch of `Proxy.Run` (`proxy/proxy.go`, lines 240-259): the local
variable `svr` declared at line 245, and the separate server value that
`http.Serve(ln, httpHandler)` at line 247 allocates internally. -/
inductive PlainHttpServer where
  | svr
  | httpServeInternal
deriving DecidableEq, Repr

/-- Server whose accept loop serves the plain listener: `Proxy.Run` calls
the package-level `http.Serve(ln, httpHandler)`, which allocates and
serves its own `http.Server`, not `svr`. -/
def proxyPlainServeLoopServer : PlainHttpServer := .httpServeInternal

/-- Server handed to the shutdown watcher: `gracefulShutdown(ctx, &svr)`
targets the local `svr`. -/
def proxyPlainShutdownTarget : PlainHttpServer := .svr

/-- Semantics of `http.Server.Shutdown`: it closes listeners of, and
stops acceptance on, exactly the server value it is invoked on. A
listener stops accepting after the cancellation signal iff the shutdown
target is the server running its accept loop. -/
def stopsAcceptingOnCancel (serveLoop shutdownTarget : PlainHttpServer) : Bool :=
  serveLoop == shutdownTarget

/-- Whether the proxy's plain listener keeps accepting new connections
after the shared cancellation signal fires. -/
def plainListenerAcceptsAfterCancel : Bool :=
  !stopsAcceptingOnCancel proxyPlainServeLoopServer proxyPlainShutdownTarget

/-- The error value the `cache.get` wrapper returns on every miss. -/
def missErr (addr : String) : Except String UserProfile :=
  .error ("addr not found: " ++ addr)

/-- One `cache.set` call, for reasoning about arbitrary insertion
sequences: the instant of the call, the key, the value, and the TTL. -/
structure SetOp where
  time : Nat
  key : String
  profile : UserProfile
  ttl : Nat

/-- Replay of a sequence of `cache.set` calls against a cache state. -/
def applySets (c : Cache) (ops : List SetOp) : Cache :=
  ops.foldl (fun acc o => acc.set o.time o.key o.profile o.ttl) c

/-- Concrete profile used in closed evaluation theorems. -/
def adaProfile : UserProfile :=
  ⟨"https://example.com/ada.png", "ada", "Ada Lovelace"⟩

/-- Directory oracle that classifies every peer as the human `adaProfile`. -/
def whoisHumanAda : String → WhoIsResult := fun _ => .node false adaProfile

/-- Directory oracle that classifies every peer as a tagged node. -/
def whoisTaggedAda : String → WhoIsResult := fun _ => .node true adaProfile

/-- Directory oracle modelling an unreachable identity directory. -/
def whoisDown : String → WhoIsResult := fun _ => .failure

/-- The prefix `100.64.0.0/10` (1681915904 = 100.64.0.0). -/
def tailnetCidr : Cidr := ⟨1681915904, 10⟩

/-! Helper lemmas about the cache and the handlers. -/

theorem Cache.get_set_self (c : Cache) (t t' : Nat) (k : String) (p : UserProfile) (ttl : Nat)
    (hm : 1 ≤ c.maxTokens) (h : t' < t + ttl) :
    (c.set t k p ttl).get t' k = .ok p := by
  obtain ⟨m, hm'⟩ := Nat.exists_eq_add_of_le hm
  unfold Cache.set Cache.get
  simp only [hm', Nat.add_comm 1 m, List.take_succ_cons]
  rw [List.find?_cons_of_pos]
  simp [h]

theorem Cache.get_set_expired (c : Cache) (t t' : Nat) (k : String) (p : UserProfile) (ttl : Nat)
    (h : t + ttl ≤ t') :
    (c.set t k p ttl).get t' k = missErr k := by
  unfold Cache.set Cache.get missErr
  have hpred : ∀ e ∈ ((⟨k, p, t + ttl⟩ : CacheEntry) :: c.entries.filter (fun e => e.key ≠ k)).take c.maxTokens,
      ¬ ((e.key == k && decide (t' < e.expiry)) = true) := by
    intro e he
    have hmem := List.take_subset _ _ he
    rcases List.mem_cons.mp hmem with rfl | hrest
    · simp
      omega
    · have hk := (List.mem_filter.mp hrest).2
      simp only [decide_eq_true_eq] at hk
      simp [hk]
  rw [List.find?_eq_none.mpr hpred]

theorem Cache.miss_mono (c : Cache) (t t' : Nat) (k : String)
    (h : c.get t k = missErr k) (hle : t ≤ t') :
    c.get t' k = missErr k := by
  unfold Cache.get missErr at h ⊢
  rcases hfind : c.entries.find? (fun e => e.key == k && decide (t < e.expiry)) with _ | e
  · rw [List.find?_eq_none.mpr]
    intro e he
    have := List.find?_eq_none.mp hfind e he
    by_cases hk : e.key == k
    · simp [hk] at this ⊢
      omega
    · simp [hk]
  · rw [hfind] at h
    simp at h

theorem serverHandle_trusted (tr : List Cidr) (ttl : Nat) (whois : String → WhoIsResult)
    (c : Cache) (now : Nat) (host port : String) (ap : AddrPort)
    (hhost : ¬ host = "") (hport : ¬ port = "")
    (hap : parseAddrPort host port = some ap)
    (hany : tr.any (fun r => r.containsAddr ap.ip) = true) :
    serverHandle tr ttl whois c now host port = ⟨200, none, c, 0, 0, 0⟩ := by
  simp [serverHandle, hhost, hport, hap, hany]

theorem serverHandle_badAddr (tr : List Cidr) (ttl : Nat) (whois : String → WhoIsResult)
    (c : Cache) (now : Nat) (host port : String)
    (hbad : host = "" ∨ port = "" ∨ parseAddrPort host port = none) :
    serverHandle tr ttl whois c now host port = ⟨401, none, c, 0, 0, 0⟩ := by
  rcases hbad with h | h | h
  · simp [serverHandle, h]
  · simp [serverHandle, h]
  · by_cases hh : host = ""
    · simp [serverHandle, hh]
    · by_cases hp : port = ""
      · simp [serverHandle, hp]
      · simp [serverHandle, hh, hp, h]

theorem serverHandle_hit (tr : List Cidr) (ttl : Nat) (whois : String → WhoIsResult)
    (c : Cache) (now : Nat) (host port : String) (ap : AddrPort) (p : UserProfile)
    (hhost : ¬ host = "") (hport : ¬ port = "")
    (hap : parseAddrPort host port = some ap)
    (hany : tr.any (fun r => r.containsAddr ap.ip) = false)
    (hget : c.get now host = .ok p) :
    serverHandle tr ttl whois c now host port = ⟨200, some p, c, 0, 1, 0⟩ := by
  simp [serverHandle, hhost, hport, hap, hany, hget]

theorem serverHandle_miss_human (tr : List Cidr) (ttl : Nat) (whois : String → WhoIsResult)
    (c : Cache) (now : Nat) (host port : String) (ap : AddrPort) (p : UserProfile)
    (hhost : ¬ host = "") (hport : ¬ port = "")
    (hap : parseAddrPort host port = some ap)
    (hany : tr.any (fun r => r.containsAddr ap.ip) = false)
    (hmiss : c.get now host = missErr host)
    (hwho : whois (addrPortString ap) = .node false p) :
    serverHandle tr ttl whois c now host port = ⟨200, some p, c.set now host p ttl, 1, 1, 1⟩ := by
  simp [serverHandle, hhost, hport, hap, hany, hmiss, missErr, hwho]

theorem serverHandle_miss_tagged (tr : List Cidr) (ttl : Nat) (whois : String → WhoIsResult)
    (c : Cache) (now : Nat) (host port : String) (ap : AddrPort) (p : UserProfile)
    (hhost : ¬ host = "") (hport : ¬ port = "")
    (hap : parseAddrPort host port = some ap)
    (hany : tr.any (fun r => r.containsAddr ap.ip) = false)
    (hmiss : c.get now host = missErr host)
    (hwho : whois (addrPortString ap) = .node true p) :
    serverHandle tr ttl whois c now host port = ⟨403, none, c, 1, 1, 0⟩ := by
  simp [serverHandle, hhost, hport, hap, hany, hmiss, missErr, hwho]

theorem proxyHandle_hit (ttl : Nat) (whois : String → WhoIsResult)
    (c : Cache) (now : Nat) (addr : String) (p : UserProfile)
    (hget : c.get now addr = .ok p) :
    proxyHandle ttl whois c now addr = ⟨.forward p, c, 0⟩ := by
  simp [proxyHandle, hget]

theorem proxyHandle_miss_human (ttl : Nat) (whois : String → WhoIsResult)
    (c : Cache) (now : Nat) (addr : String) (p : UserProfile)
    (hmiss : c.get now addr = missErr addr)
    (hwho : whois addr = .node false p) :
    proxyHandle ttl whois c now addr = ⟨.forward p, c.set now addr p ttl, 1⟩ := by
  simp [proxyHandle, hmiss, missErr, hwho]

theorem proxyHandle_miss_tagged (ttl : Nat) (whois : String → WhoIsResult)
    (c : Cache) (now : Nat) (addr : String) (p : UserProfile)
    (hmiss : c.get now addr = missErr addr)
    (hwho : whois addr = .node true p) :
    proxyHandle ttl whois c now addr = ⟨.forbidden, c, 1⟩ := by
  simp [proxyHandle, hmiss, missErr, hwho]

theorem pkgHandle_badAddr (whois : String → WhoIsResult) (host port : String)
    (hbad : host = "" ∨ port = "" ∨ parseAddrPort host port = none) :
    pkgHandle whois host port = ⟨400, none, 0⟩ := by
  rcases hbad with h | h | h
  · simp [pkgHandle, h]
  · simp [pkgHandle, h]
  · by_cases hh : host = ""
    · simp [pkgHandle, hh]
    · by_cases hp : port = ""
      · simp [pkgHandle, hp]
      · simp [pkgHandle, hh, hp, h]

theorem pkgHandle_human (whois : String → WhoIsResult) (host port : String)
    (ap : AddrPort) (p : UserProfile)
    (hhost : ¬ host = "") (hport : ¬ port = "")
    (hap : parseAddrPort host port = some ap)
    (hwho : whois (addrPortString ap) = .node false p) :
    pkgHandle whois host port = ⟨204, some p, 1⟩ := by
  simp [pkgHandle, hhost, hport, hap, hwho]

/-- Claim C2: for every peer address contained in at least one configured
trusted prefix, the handler allows the request (status 200) without any
cache read or write, without any directory (WhoIs) call, and without
setting any identity header, whatever the directory oracle does — in
particular when the directory is unreachable. -/
theorem C2_trusted_bypass (tr : List Cidr) (ttl : Nat) (whois : String → WhoIsResult)
    (c : Cache) (now : Nat) (host port : String) (ap : AddrPort)
    (hhost : ¬ host = "") (hport : ¬ port = "")
    (hap : parseAddrPort host port = some ap)
    (htrusted : tr.any (fun r => r.containsAddr ap.ip) = true) :
    serverHandle tr ttl whois c now host port = ⟨200, none, c, 0, 0, 0⟩ :=
  serverHandle_trusted tr ttl whois c now host port ap hhost hport hap htrusted

/-- Witness for C2: peer `100.64.0.5:54321` inside `100.64.0.0/10`, with
the directory unreachable. -/
theorem C2_trusted_bypass_witness :
    parseAddrPort "100.64.0.5" "54321" = some ⟨1681915909, 54321⟩ ∧
    [tailnetCidr].any (fun r => r.containsAddr 1681915909) = true ∧
    serverHandle [tailnetCidr] 600 whoisDown (newCache 1000) 0 "100.64.0.5" "54321"
      = ⟨200, none, newCache 1000, 0, 0, 0⟩ :=
  ⟨by decide, by decide,
    C2_trusted_bypass [tailnetCidr] 600 whoisDown (newCache 1000) 0 "100.64.0.5" "54321"
      ⟨1681915909, 54321⟩ (by decide) (by decide) (by decide) (by decide)⟩

/-- Claim C1: a peer whose identity the directory resolves to a human
profile costs exactly one directory call on its first request, which
fills the cache; any request for the same address within the TTL costs
zero directory calls, produces identity headers identical to the first
resolution, and leaves the cache unchanged (so the same holds for every
subsequent request in the window). Stated for the access-check variant
(`server/server.go`) and the proxying variant (`proxy/proxy.go`). -/
theorem C1_cache_effectiveness (tr : List Cidr) (ttl : Nat) (whois : String → WhoIsResult)
    (c : Cache) (t t' : Nat) (host port : String) (ap : AddrPort) (p : UserProfile)
    (pc : Cache) (pt pt' : Nat) (paddr : String) (pp : UserProfile)
    (hm : 1 ≤ c.maxTokens)
    (hhost : ¬ host = "") (hport : ¬ port = "")
    (hap : parseAddrPort host port = some ap)
    (hany : tr.any (fun r => r.containsAddr ap.ip) = false)
    (hmiss : c.get t host = missErr host)
    (hwho : whois (addrPortString ap) = .node false p)
    (ht' : t' < t + ttl)
    (hpm : 1 ≤ pc.maxTokens)
    (hpmiss : pc.get pt paddr = missErr paddr)
    (hpwho : whois paddr = .node false pp)
    (hpt' : pt' < pt + ttl) :
    serverHandle tr ttl whois c t host port = ⟨200, some p, c.set t host p ttl, 1, 1, 1⟩ ∧
    serverHandle tr ttl whois (c.set t host p ttl) t' host port
      = ⟨200, some p, c.set t host p ttl, 0, 1, 0⟩ ∧
    proxyHandle ttl whois pc pt paddr = ⟨.forward pp, pc.set pt paddr pp ttl, 1⟩ ∧
    proxyHandle ttl whois (pc.set pt paddr pp ttl) pt' paddr
      = ⟨.forward pp, pc.set pt paddr pp ttl, 0⟩ := by
  refine ⟨serverHandle_miss_human tr ttl whois c t host port ap p hhost hport hap hany hmiss hwho,
    serverHandle_hit tr ttl whois _ t' host port ap p hhost hport hap hany
      (Cache.get_set_self c t t' host p ttl hm ht'),
    proxyHandle_miss_human ttl whois pc pt paddr pp hpmiss hpwho,
    proxyHandle_hit ttl whois _ pt' paddr pp
      (Cache.get_set_self pc pt pt' paddr pp ttl hpm hpt')⟩

/-- Witness for C1: peer `100.64.1.9` (port 442) resolved as the human
`adaProfile`, first request at instant 0, second at instant 5 with a
600-unit TTL; same scenario for the proxying handler keyed by
`100.64.1.9:442`. -/
theorem C1_cache_effectiveness_witness :
    (newCache 1000).get 0 "100.64.1.9" = missErr "100.64.1.9" ∧
    (serverHandle [] 600 whoisHumanAda (newCache 1000) 0 "100.64.1.9" "442"
        = ⟨200, some adaProfile, (newCache 1000).set 0 "100.64.1.9" adaProfile 600, 1, 1, 1⟩ ∧
      serverHandle [] 600 whoisHumanAda ((newCache 1000).set 0 "100.64.1.9" adaProfile 600) 5 "100.64.1.9" "442"
        = ⟨200, some adaProfile, (newCache 1000).set 0 "100.64.1.9" adaProfile 600, 0, 1, 0⟩ ∧
      proxyHandle 600 whoisHumanAda (newCache 1000) 0 "100.64.1.9:442"
        = ⟨.forward adaProfile, (newCache 1000).set 0 "100.64.1.9:442" adaProfile 600, 1⟩ ∧
      proxyHandle 600 whoisHumanAda ((newCache 1000).set 0 "100.64.1.9:442" adaProfile 600) 5 "100.64.1.9:442"
        = ⟨.forward adaProfile, (newCache 1000).set 0 "100.64.1.9:442" adaProfile 600, 0⟩) :=
  ⟨by decide,
    C1_cache_effectiveness [] 600 whoisHumanAda (newCache 1000) 0 5 "100.64.1.9" "442"
      ⟨1681916169, 442⟩ adaProfile (newCache 1000) 0 5 "100.64.1.9:442" adaProfile
      (by decide) (by decide) (by decide) (by decide) (by decide) (by decide) rfl
      (by decide) (by decide) (by decide) rfl (by decide)⟩

/-- Claim C3: a peer the directory classifies as tagged/non-human is
answered 403 with no identity headers, nothing is stored in the cache,
and a later request for the same peer again costs one fresh directory
call with the same outcome. Stated for both the access-check and the
proxying variants. -/
theorem C3_tagged_forbidden (tr : List Cidr) (ttl : Nat) (whois : String → WhoIsResult)
    (c : Cache) (t t' : Nat) (host port : String) (ap : AddrPort) (p : UserProfile)
    (pc : Cache) (pt pt' : Nat) (paddr : String) (pp : UserProfile)
    (hhost : ¬ host = "") (hport : ¬ port = "")
    (hap : parseAddrPort host port = some ap)
    (hany : tr.any (fun r => r.containsAddr ap.ip) = false)
    (hmiss : c.get t host = missErr host)
    (hwho : whois (addrPortString ap) = .node true p)
    (ht : t ≤ t')
    (hpmiss : pc.get pt paddr = missErr paddr)
    (hpwho : whois paddr = .node true pp)
    (hpt : pt ≤ pt') :
    serverHandle tr ttl whois c t host port = ⟨403, none, c, 1, 1, 0⟩ ∧
    serverHandle tr ttl whois c t' host port = ⟨403, none, c, 1, 1, 0⟩ ∧
    proxyHandle ttl whois pc pt paddr = ⟨.forbidden, pc, 1⟩ ∧
    proxyHandle ttl whois pc pt' paddr = ⟨.forbidden, pc, 1⟩ :=
  ⟨serverHandle_miss_tagged tr ttl whois c t host port ap p hhost hport hap hany hmiss hwho,
    serverHandle_miss_tagged tr ttl whois c t' host port ap p hhost hport hap hany
      (Cache.miss_mono c t t' host hmiss ht) hwho,
    proxyHandle_miss_tagged ttl whois pc pt paddr pp hpmiss hpwho,
    proxyHandle_miss_tagged ttl whois pc pt' paddr pp
      (Cache.miss_mono pc pt pt' paddr hpmiss hpt) hpwho⟩

/-- Witness for C3: the tagged peer `100.64.1.9` at instants 0 and 7, in
both variants. -/
theorem C3_tagged_forbidden_witness :
    (newCache 1000).get 0 "100.64.1.9" = missErr "100.64.1.9" ∧
    (serverHandle [] 600 whoisTaggedAda (newCache 1000) 0 "100.64.1.9" "442"
        = ⟨403, none, newCache 1000, 1, 1, 0⟩ ∧
      serverHandle [] 600 whoisTaggedAda (newCache 1000) 7 "100.64.1.9" "442"
        = ⟨403, none, newCache 1000, 1, 1, 0⟩ ∧
      proxyHandle 600 whoisTaggedAda (newCache 1000) 0 "100.64.1.9:442"
        = ⟨.forbidden, newCache 1000, 1⟩ ∧
      proxyHandle 600 whoisTaggedAda (newCache 1000) 7 "100.64.1.9:442"
        = ⟨.forbidden, newCache 1000, 1⟩) :=
  ⟨by decide,
    C3_tagged_forbidden [] 600 whoisTaggedAda (newCache 1000) 0 7 "100.64.1.9" "442"
      ⟨1681916169, 442⟩ adaProfile (newCache 1000) 0 7 "100.64.1.9:442" adaProfile
      (by decide) (by decide) (by decide) (by decide) (by decide) rfl (by decide)
      (by decide) rfl (by decide)⟩

/-- Claim C4: the cache's get operation misses for a key with no stored
entry (never set, or evicted); a hit always comes from a physically
stored entry whose expiry is still in the future (never a stale entry);
after a set, a read at or past the expiry instant misses; and the next
request for a previously-cached address past its TTL performs a fresh
directory call, whatever the directory then answers. -/
theorem C4_ttl_expiry (c : Cache) (t t' : Nat) (k : String) (p : UserProfile)
    (tr : List Cidr) (ttl : Nat) (whois : String → WhoIsResult)
    (host port : String) (ap : AddrPort)
    (hnone : ∀ e ∈ c.entries, ¬ e.key = k)
    (hexp : t + ttl ≤ t')
    (hhost : ¬ host = "") (hport : ¬ port = "")
    (hap : parseAddrPort host port = some ap)
    (hany : tr.any (fun r => r.containsAddr ap.ip) = false) :
    c.get t k = missErr k ∧
    (∀ q, c.get t k = .ok q → ∃ e ∈ c.entries, e.key = k ∧ e.profile = q ∧ t < e.expiry) ∧
    (c.set t k p ttl).get t' k = missErr k ∧
    (serverHandle tr ttl whois (c.set t host p ttl) t' host port).whoisCalls = 1 := by
  have hget : c.get t k = missErr k := by
    unfold Cache.get missErr
    rw [List.find?_eq_none.mpr]
    intro e he
    simp [hnone e he]
  refine ⟨hget, ?_, Cache.get_set_expired c t t' k p ttl hexp, ?_⟩
  · intro q hq
    unfold Cache.get at hq
    split at hq
    · rename_i e hfind
      have hp := List.find?_some hfind
      have hm := List.mem_of_find?_eq_some hfind
      simp only [Bool.and_eq_true, beq_iff_eq, decide_eq_true_eq] at hp
      simp only [Except.ok.injEq] at hq
      exact ⟨e, hm, hp.1, hq ▸ rfl, hp.2⟩
    · simp at hq
  · have hmiss' : (c.set t host p ttl).get t' host = missErr host :=
      Cache.get_set_expired c t t' host p ttl hexp
    rcases hw : whois (addrPortString ap) with _ | ⟨tg, q⟩
    · simp [serverHandle, hhost, hport, hap, hany, hmiss', missErr, hw]
    · rcases tg with _ | _ <;>
        simp [serverHandle, hhost, hport, hap, hany, hmiss', missErr, hw]

/-- Witness for C4: key `100.64.1.9` cached at instant 0 with TTL 600,
read back at instant 600 (just past expiry), against an empty cache. -/
theorem C4_ttl_expiry_witness :
    (0 + 600 ≤ 600) ∧
    ((newCache 1000).get 0 "100.64.1.9" = missErr "100.64.1.9" ∧
      (∀ q, (newCache 1000).get 0 "100.64.1.9" = .ok q →
        ∃ e ∈ (newCache 1000).entries, e.key = "100.64.1.9" ∧ e.profile = q ∧ 0 < e.expiry) ∧
      ((newCache 1000).set 0 "100.64.1.9" adaProfile 600).get 600 "100.64.1.9"
        = missErr "100.64.1.9" ∧
      (serverHandle [] 600 whoisDown ((newCache 1000).set 0 "100.64.1.9" adaProfile 600)
          600 "100.64.1.9" "442").whoisCalls = 1) :=
  ⟨by decide,
    C4_ttl_expiry (newCache 1000) 0 600 "100.64.1.9" adaProfile [] 600 whoisDown
      "100.64.1.9" "442" ⟨1681916169, 442⟩
      (by decide) (by decide) (by decide) (by decide) (by decide) (by decide)⟩

theorem Cache.set_length_le (c : Cache) (now : Nat) (addr : String)
    (profile : UserProfile) (ttl : Nat) :
    (c.set now addr profile ttl).entries.length ≤ c.maxTokens := by
  unfold Cache.set
  simp [List.length_take]

theorem applySets_length_le (ops : List SetOp) (c : Cache)
    (h : c.entries.length ≤ c.maxTokens) :
    (applySets c ops).entries.length ≤ c.maxTokens := by
  induction ops generalizing c with
  | nil => exact h
  | cons o rest ih =>
    have hstep := Cache.set_length_le c o.time o.key o.profile o.ttl
    exact ih (c.set o.time o.key o.profile o.ttl) hstep

/-- Claim C7: replaying any sequence of `cache.set` calls against a fresh
cache of maximum entry count `m` never leaves more than `m` stored
entries — capacity is an entry-count bound with unit cost per entry, and
the store never grows past it no matter how many distinct keys are
inserted. -/
theorem C7_capacity_bound (m : Nat) (ops : List SetOp) :
    (applySets (newCache m) ops).entries.length ≤ m :=
  applySets_length_le ops (newCache m) (Nat.zero_le m)

/-- Counterexample to claim C5 as stated: in the access-check variant of
`pkg/server/server.go`, a request with a missing remote-host header is
answered 400 Bad Request, not 401 Unauthorized. -/
theorem C5_counterexample :
    pkgHandle whoisDown "" "80" = ⟨400, none, 0⟩ ∧ (400 : Nat) ≠ 401 := by
  decide

/-- Claim C5 as amended: a request with a missing remote-host header, a
missing remote-port header, or an unparsable host:port combination is
answered 401 Unauthorized by the access-check variant of
`server/server.go` and 400 Bad Request by the one of
`pkg/server/server.go`, in both cases without any cache access and
without any directory call. -/
theorem C5_bad_address (tr : List Cidr) (ttl : Nat) (whois : String → WhoIsResult)
    (c : Cache) (now : Nat) (host port : String)
    (hbad : host = "" ∨ port = "" ∨ parseAddrPort host port = none) :
    serverHandle tr ttl whois c now host port = ⟨401, none, c, 0, 0, 0⟩ ∧
    pkgHandle whois host port = ⟨400, none, 0⟩ :=
  ⟨serverHandle_badAddr tr ttl whois c now host port hbad,
    pkgHandle_badAddr whois host port hbad⟩

/-- Witness for C5 (amended): a request carrying a remote-port header but
no remote-host header. -/
theorem C5_bad_address_witness :
    ("" = "" ∨ "80" = "" ∨ parseAddrPort "" "80" = none) ∧
    (serverHandle [] 600 whoisHumanAda (newCache 1000) 0 "" "80"
        = ⟨401, none, newCache 1000, 0, 0, 0⟩ ∧
      pkgHandle whoisHumanAda "" "80" = ⟨400, none, 0⟩) :=
  ⟨Or.inl rfl,
    C5_bad_address [] 600 whoisHumanAda (newCache 1000) 0 "" "80" (Or.inl rfl)⟩

/-- Counterexample to claim C6 as stated: in the access-check variant of
`server/server.go`, an allowed (trust-bypassed) request is answered 200
OK, not 204 No Content; the resolved path likewise ends without an
explicit status write, which `net/http` answers with 200. -/
theorem C6_counterexample :
    (serverHandle [tailnetCidr] 600 whoisDown (newCache 1000) 0 "100.64.0.5" "54321").status
        = 200 ∧ (200 : Nat) ≠ 204 := by
  decide

/-- Claim C6 as amended: in the access-check variant of
`server/server.go` every allowed request — trust-bypassed, resolved from
cache, or freshly resolved — is answered 200 OK, with the three identity
headers set exactly on the resolved paths; in the older variant of
`pkg/server/server.go` a resolved request is answered 204 No Content
with the identity headers set. -/
theorem C6_allowed_status (trT tr : List Cidr) (ttl : Nat) (whois : String → WhoIsResult)
    (c c2 : Cache) (now : Nat) (host port : String) (ap : AddrPort) (p q : UserProfile)
    (hhost : ¬ host = "") (hport : ¬ port = "")
    (hap : parseAddrPort host port = some ap)
    (htrusted : trT.any (fun r => r.containsAddr ap.ip) = true)
    (hany : tr.any (fun r => r.containsAddr ap.ip) = false)
    (hhit : c.get now host = .ok p)
    (hmiss : c2.get now host = missErr host)
    (hwho : whois (addrPortString ap) = .node false q) :
    serverHandle trT ttl whois c now host port = ⟨200, none, c, 0, 0, 0⟩ ∧
    serverHandle tr ttl whois c now host port = ⟨200, some p, c, 0, 1, 0⟩ ∧
    serverHandle tr ttl whois c2 now host port = ⟨200, some q, c2.set now host q ttl, 1, 1, 1⟩ ∧
    pkgHandle whois host port = ⟨204, some q, 1⟩ :=
  ⟨serverHandle_trusted trT ttl whois c now host port ap hhost hport hap htrusted,
    serverHandle_hit tr ttl whois c now host port ap p hhost hport hap hany hhit,
    serverHandle_miss_human tr ttl whois c2 now host port ap q hhost hport hap hany hmiss hwho,
    pkgHandle_human whois host port ap q hhost hport hap hwho⟩

/-- Witness for C6 (amended): peer `100.64.1.9:442`, trusted through
`100.64.0.0/10` in the bypassed scenario, resolved as `adaProfile` in
the cached and fresh scenarios. -/
theorem C6_allowed_status_witness :
    ((newCache 1000).set 0 "100.64.1.9" adaProfile 600).get 5 "100.64.1.9" = .ok adaProfile ∧
    (serverHandle [tailnetCidr] 600 whoisHumanAda ((newCache 1000).set 0 "100.64.1.9" adaProfile 600) 5 "100.64.1.9" "442"
        = ⟨200, none, (newCache 1000).set 0 "100.64.1.9" adaProfile 600, 0, 0, 0⟩ ∧
      serverHandle [] 600 whoisHumanAda ((newCache 1000).set 0 "100.64.1.9" adaProfile 600) 5 "100.64.1.9" "442"
        = ⟨200, some adaProfile, (newCache 1000).set 0 "100.64.1.9" adaProfile 600, 0, 1, 0⟩ ∧
      serverHandle [] 600 whoisHumanAda (newCache 1000) 5 "100.64.1.9" "442"
        = ⟨200, some adaProfile, (newCache 1000).set 5 "100.64.1.9" adaProfile 600, 1, 1, 1⟩ ∧
      pkgHandle whoisHumanAda "100.64.1.9" "442" = ⟨204, some adaProfile, 1⟩) :=
  ⟨by decide,
    C6_allowed_status [tailnetCidr] [] 600 whoisHumanAda
      ((newCache 1000).set 0 "100.64.1.9" adaProfile 600) (newCache 1000) 5 "100.64.1.9" "442"
      ⟨1681916169, 442⟩ adaProfile adaProfile
      (by decide) (by decide) (by decide) (by decide) (by decide) (by decide) (by decide) rfl⟩

/-- Claim C8, checked at the failing inputs: the trusted-CIDR startup
parsing of `Server.Run` goes through `netip.MustParsePrefix`, which
panics (modelled as `none`) on the default empty configuration and on
any malformed element instead of returning a descriptive error to the
caller; a fully valid list is parsed. -/
theorem C8_startup_parse_panics :
    serverParseTrustedCIDRs "" = none ∧
    serverParseTrustedCIDRs "100.64.0.0/10,bogus" = none ∧
    serverParseTrustedCIDRs "100.64.0.0/10" = some [⟨1681915904, 10⟩] := by
  decide

theorem mustParseAll_isSome (l : List String) :
    (mustParseAll l).isSome = l.all (fun e => (parseCidr e).isSome) := by
  induction l with
  | nil => rfl
  | cons s rest ih =>
    rcases hp : parseCidr s with _ | r
    · simp [mustParseAll, hp]
    · rcases hm : mustParseAll rest with _ | rs
      · rw [hm] at ih
        simp [mustParseAll, hp, hm, ← ih]
      · rw [hm] at ih
        simp [mustParseAll, hp, hm, ← ih]

/-- Claim C10: `Server.Run` reaches its listener phase without panicking
exactly when every comma-separated element of the trusted-CIDR string is
a valid prefix; splitting the empty string (the default, and the only
value reachable through the command-line layer of the server variant,
which registers no trusted-CIDR flag) yields one empty element, on which
startup panics instead of returning an error. -/
theorem C10_startup_panics_on_default :
    (∀ s : String, (serverParseTrustedCIDRs s).isSome
        = (splitComma s).all (fun e => (parseCidr e).isSome)) ∧
    splitComma "" = [""] ∧
    serverParseTrustedCIDRs "" = none :=
  ⟨fun s => mustParseAll_isSome (splitComma s), by decide, by decide⟩

/-- Claim C9, checked at the wiring level: in `Proxy.Run`'s plain-listener
branch the accept loop runs on the server value `http.Serve` allocates
internally, while the shutdown watcher targets the unrelated local
`svr`; shutting down `svr` therefore never stops acceptance on the plain
listener, and new connections are still accepted after the shared
cancellation signal fires. -/
theorem C9_plain_shutdown_wiring :
    proxyPlainServeLoopServer ≠ proxyPlainShutdownTarget ∧
    stopsAcceptingOnCancel proxyPlainServeLoopServer proxyPlainShutdownTarget = false ∧
    plainListenerAcceptsAfterCancel = true := by
  decide
